import Mathlib

/-!
Shallow embedding of `src/app/web/static/connected_interface.js` (class `App`),
the browser-side session controller of OpenManusWeb.

Modelling conventions:
* The controller's mutable fields (`this.sessionId`, `this.isProcessing`) and the
  DOM state it drives (`send-btn.disabled`, `stop-btn.disabled`,
  `status-indicator.textContent`) form `AppState`.
* Calls to the collaborator managers (`chatManager`, `thinkingManager`,
  `websocketManager`), outgoing fetch requests, and the `setTimeout` workspace
  refresh are recorded as an ordered `List Effect` trace.  `console.log` and
  `console.error` calls are observability-only and are not modelled as effects.
* The localized strings produced by `t(...)` from `i18n.js` (not part of the
  modelled source) are represented structurally: `SysMsg`/`StatusText` carry the
  localization key and the interpolated failure data rather than rendered text.
* The outcome of an awaited `fetch` (including `response.ok` and JSON parsing)
  is passed in explicitly (`FetchResult` / `StopResult`), since the network is
  external to the program.
* `Date.now() / 1000` in the system-log adapter is injected as an abstract
  clock value `now : Nat` (its value is opaque to all properties considered).
-/

/-- Content of `status-indicator.textContent`: empty, `t('processing_request')`
or `t('processing_stopped')` (the only values the controller writes). -/
inductive StatusText
  | empty
  | processing
  | stopped
deriving DecidableEq

/-- The controller state: `this.sessionId`, `this.isProcessing`, and the DOM
state mutated by `App` (`send-btn.disabled`, `stop-btn.disabled`,
`status-indicator.textContent`). -/
structure AppState where
  sessionId : Option String
  isProcessing : Bool
  sendDisabled : Bool
  stopDisabled : Bool
  statusIndicator : StatusText
deriving DecidableEq

/-- The failure reason carried by a caught `error`: either the
`t('api_error', {status})` error thrown on `!response.ok`, or a transport /
parse fault with its message. -/
inductive FailReason
  | apiError (status : Nat)
  | fault (message : String)
deriving DecidableEq

/-- Payload of a `chatManager.addSystemMessage` call:
`t('error_occurred', {message})` around a failure reason, or
`t('processing_stopped')`. -/
inductive SysMsg
  | errorOccurred (reason : FailReason)
  | processingStopped
deriving DecidableEq

/-- A message handed to the chat-history collaborator. -/
inductive ChatMsg
  | user (text : String)
  | ai (text : String)
  | system (m : SysMsg)
deriving DecidableEq

/-- Shape of a thinking step (`{message, type, details, timestamp}`) as built
by the system-log adapter and as forwarded verbatim from
`data.thinking_steps`. -/
structure ThinkingStep where
  message : String
  type : String
  details : Option String
  timestamp : Nat
deriving DecidableEq

/-- One observable side effect of the controller: an outgoing request, a
collaborator call, or a scheduled workspace refresh. -/
inductive Effect
  | fetchChat (prompt : String)
  | fetchStop (sid : String)
  | chatAdd (m : ChatMsg)
  | thinkingAdd (steps : List ThinkingStep)
  | thinkingClear
  | wsConnect (sid : String)
  | scheduleRefresh (delayMs : Nat)
deriving DecidableEq

/-- An inbound WebSocket event (`data` in `handleWebSocketMessage`).  Absent
array fields and empty arrays behave identically in the source
(`data.f && data.f.length > 0`), so arrays are modelled as plain lists. -/
structure InboundEvent where
  status : Option String := none
  result : Option String := none
  thinking_steps : List ThinkingStep := []
  terminal_output : List String := []
  system_logs : List String := []
  chat_logs : List String := []
deriving DecidableEq

/-- Outcome of the awaited `fetch('/api/chat', ...)` in `handleSendMessage`:
a well-formed OK response carrying `data.session_id`, a non-OK response
status, or a transport/parse fault. -/
inductive FetchResult
  | ok (session_id : String)
  | httpError (status : Nat)
  | fault (message : String)
deriving DecidableEq

/-- Outcome of the awaited `fetch('/api/chat/{id}/stop', ...)` in
`stopProcessing`. -/
inductive StopResult
  | ok
  | httpError (status : Nat)
  | fault (message : String)
deriving DecidableEq

/-- The synchronous entry of `handleSendMessage` after the guard (lines
112-115): set `isProcessing`, disable send, enable stop, show the processing
label. -/
def submitEntry (s : AppState) : AppState :=
  { s with
      isProcessing := true
      sendDisabled := true
      stopDisabled := false
      statusIndicator := StatusText.processing }

/-- The part of `handleSendMessage` from the `fetch` onward (lines 117-150):
on success store `data.session_id`, add the user message, connect the
WebSocket, clear thinking; on any failure (thrown `api_error` or transport
fault) the catch block reports a system message and reverts the UI state. -/
def submitSettle (s : AppState) (message : String) : FetchResult → AppState × List Effect
  | FetchResult.ok sid =>
      ({ s with sessionId := some sid },
       [Effect.fetchChat message,
        Effect.chatAdd (ChatMsg.user message),
        Effect.wsConnect sid,
        Effect.thinkingClear])
  | FetchResult.httpError st =>
      ({ s with
           isProcessing := false
           sendDisabled := false
           stopDisabled := true
           statusIndicator := StatusText.empty },
       [Effect.fetchChat message,
        Effect.chatAdd (ChatMsg.system (SysMsg.errorOccurred (FailReason.apiError st)))])
  | FetchResult.fault m =>
      ({ s with
           isProcessing := false
           sendDisabled := false
           stopDisabled := true
           statusIndicator := StatusText.empty },
       [Effect.fetchChat message,
        Effect.chatAdd (ChatMsg.system (SysMsg.errorOccurred (FailReason.fault m)))])

/-- `App.handleSendMessage(message)` (lines 106-151), with the fetch outcome
passed in.  The guard (lines 107-110) returns immediately while processing
(its `console.log` is observability-only). -/
def handleSendMessage (s : AppState) (message : String) (r : FetchResult) :
    AppState × List Effect :=
  if s.isProcessing then (s, [])
  else submitSettle (submitEntry s) message r

/-- The terminal-status test of line 157:
`status === 'completed' || status === 'error' || status === 'stopped'`. -/
def isTerminalStatus (st : String) : Bool :=
  st == "completed" || st == "error" || st == "stopped"

/-- The system-log adapter of lines 185-192: lift one log line to a
`ThinkingStep` with `type = "system_log"`, `details = null` and the current
clock value as timestamp. -/
def mkLogStep (now : Nat) (log : String) : ThinkingStep :=
  { message := log, type := "system_log", details := none, timestamp := now }

/-- State mutation of `handleWebSocketMessage` (lines 156-162): a truthy
terminal status resets `isProcessing` and the UI; everything else leaves the
state untouched.  (`if (data.status)` with `status = ""` is falsy, and `""`
is not terminal, so matching on presence plus the terminal test is exact.) -/
def wsStateUpdate (s : AppState) (e : InboundEvent) : AppState :=
  match e.status with
  | some st =>
      if isTerminalStatus st then
        { s with
            isProcessing := false
            sendDisabled := false
            stopDisabled := true
            statusIndicator := StatusText.empty }
      else s
  | none => s

/-- Chat effect of the status block (lines 156-167): inside the terminal
branch, `if (data.result)` forwards a truthy (present and non-empty) result
as an AI message. -/
def wsStatusEffects (e : InboundEvent) : List Effect :=
  match e.status with
  | some st =>
      if isTerminalStatus st then
        match e.result with
        | some r => if r == "" then [] else [Effect.chatAdd (ChatMsg.ai r)]
        | none => []
      else []
  | none => []

/-- All collaborator effects of `handleWebSocketMessage` in source order:
status block (156-168), thinking steps (171-173), terminal output is
console-only (176-178), system logs (181-195), chat logs are console-only
(198-200), completion refresh (203-205).  The effects depend only on the
event and the clock, never on the controller state. -/
def wsEffects (e : InboundEvent) (now : Nat) : List Effect :=
  wsStatusEffects e
    ++ (if e.thinking_steps.isEmpty then [] else [Effect.thinkingAdd e.thinking_steps])
    ++ (if e.system_logs.isEmpty then []
        else [Effect.thinkingAdd (e.system_logs.map (mkLogStep now))])
    ++ (if e.status == some "completed" then [Effect.scheduleRefresh 1000] else [])

/-- `App.handleWebSocketMessage(data)` (lines 154-206). -/
def handleWebSocketMessage (s : AppState) (e : InboundEvent) (now : Nat) :
    AppState × List Effect :=
  (wsStateUpdate s e, wsEffects e now)

/-- `App.stopProcessing()` (lines 209-232), with the stop-fetch outcome passed
in.  The guard `if (!this.sessionId) return` (line 210) is a truthiness test:
it no-ops both on `null` and on the falsy empty-string id.  Otherwise, on
success report `processing_stopped`, show the stopped label, re-enable send
and clear `isProcessing`; on failure only a system message is reported and
the state is untouched. -/
def stopProcessing (s : AppState) : StopResult → AppState × List Effect
  | r =>
    match s.sessionId with
    | none => (s, [])
    | some sid =>
        if sid == "" then (s, [])
        else
        match r with
        | StopResult.ok =>
            ({ s with
                 isProcessing := false
                 sendDisabled := false
                 stopDisabled := true
                 statusIndicator := StatusText.stopped },
             [Effect.fetchStop sid,
              Effect.chatAdd (ChatMsg.system SysMsg.processingStopped)])
        | StopResult.httpError st =>
            (s, [Effect.fetchStop sid,
                 Effect.chatAdd (ChatMsg.system (SysMsg.errorOccurred (FailReason.apiError st)))])
        | StopResult.fault m =>
            (s, [Effect.fetchStop sid,
                 Effect.chatAdd (ChatMsg.system (SysMsg.errorOccurred (FailReason.fault m)))])

/-- The failure reason a `FetchResult` makes the catch block report, if any. -/
def failureReason : FetchResult → Option FailReason
  | FetchResult.ok _ => none
  | FetchResult.httpError st => some (FailReason.apiError st)
  | FetchResult.fault m => some (FailReason.fault m)

/-- The failure reason a `StopResult` makes the catch block report, if any. -/
def stopFailureReason : StopResult → Option FailReason
  | StopResult.ok => none
  | StopResult.httpError st => some (FailReason.apiError st)
  | StopResult.fault m => some (FailReason.fault m)

/-- System messages appearing in a trace, in order. -/
def systemMsgs (tr : List Effect) : List SysMsg :=
  tr.filterMap fun ef =>
    match ef with
    | Effect.chatAdd (ChatMsg.system m) => some m
    | _ => none

/-- AI messages appearing in a trace, in order. -/
def aiMsgs (tr : List Effect) : List String :=
  tr.filterMap fun ef =>
    match ef with
    | Effect.chatAdd (ChatMsg.ai t) => some t
    | _ => none

/-- Payloads of `thinkingManager.addThinkingSteps` calls in a trace, in
order. -/
def thinkingCalls (tr : List Effect) : List (List ThinkingStep) :=
  tr.filterMap fun ef =>
    match ef with
    | Effect.thinkingAdd ss => some ss
    | _ => none

/-- A controller configuration for the small-step reachability model: the
state plus the message of a create-session request currently in flight (the
window between `handleSendMessage`'s entry and its awaited `fetch`
resolution), if any. -/
structure Config where
  state : AppState
  pendingSubmit : Option String
deriving DecidableEq

/-- Reachable configurations of the controller.  The constructor initializes
`sessionId = null`, `isProcessing = false`; the initial DOM enablement and
indicator come from the page, not this file, so they are arbitrary.  A
submission is split into its synchronous entry and its asynchronous
settlement; WebSocket events and cancellation may be dispatched at any time
(single-threaded event interleaving while a fetch is awaited). -/
inductive Reach : Config → Prop
  | init (sd sp : Bool) (ind : StatusText) :
      Reach ⟨{ sessionId := none, isProcessing := false, sendDisabled := sd,
               stopDisabled := sp, statusIndicator := ind }, none⟩
  | submitStart (c : Config) (msg : String) :
      Reach c → c.pendingSubmit = none → c.state.isProcessing = false →
      Reach ⟨submitEntry c.state, some msg⟩
  | submitResolve (c : Config) (msg : String) (r : FetchResult) :
      Reach c → c.pendingSubmit = some msg →
      Reach ⟨(submitSettle c.state msg r).1, none⟩
  | wsEvent (c : Config) (e : InboundEvent) (now : Nat) :
      Reach c → Reach ⟨(handleWebSocketMessage c.state e now).1, c.pendingSubmit⟩
  | cancel (c : Config) (r : StopResult) :
      Reach c → Reach ⟨(stopProcessing c.state r).1, c.pendingSubmit⟩

/-- A concrete idle state used by concrete instantiations below. -/
def s0 : AppState :=
  { sessionId := none, isProcessing := false, sendDisabled := false,
    stopDisabled := true, statusIndicator := StatusText.empty }

/-- A concrete busy state (as reached after a successful first submission),
used by concrete instantiations below. -/
def sBusy : AppState :=
  { sessionId := some "s1", isProcessing := true, sendDisabled := true,
    stopDisabled := false, statusIndicator := StatusText.processing }

lemma wsStateUpdate_sessionId (s : AppState) (e : InboundEvent) :
    (wsStateUpdate s e).sessionId = s.sessionId := by
  unfold wsStateUpdate
  cases e.status with
  | none => rfl
  | some st => dsimp only; split <;> rfl

lemma wsStateUpdate_isProcessing (s : AppState) (e : InboundEvent) :
    (wsStateUpdate s e).isProcessing = s.isProcessing ∨
      (wsStateUpdate s e).isProcessing = false := by
  unfold wsStateUpdate
  cases e.status with
  | none => exact Or.inl rfl
  | some st =>
      dsimp only; split
      · exact Or.inr rfl
      · exact Or.inl rfl

lemma stopProcessing_sessionId (s : AppState) (r : StopResult) :
    ((stopProcessing s r).1).sessionId = s.sessionId := by
  cases h : s.sessionId with
  | none => simp [stopProcessing, h]
  | some sid =>
      by_cases he : sid = "" <;> cases r <;> simp [stopProcessing, h, he]

lemma stopProcessing_isProcessing (s : AppState) (r : StopResult) :
    ((stopProcessing s r).1).isProcessing = s.isProcessing ∨
      ((stopProcessing s r).1).isProcessing = false := by
  cases h : s.sessionId with
  | none => exact Or.inl (by simp [stopProcessing, h])
  | some sid =>
      by_cases he : sid = ""
      · exact Or.inl (by simp [stopProcessing, h, he])
      · cases r with
        | ok => exact Or.inr (by simp [stopProcessing, h, he])
        | httpError st => exact Or.inl (by simp [stopProcessing, h, he])
        | fault m => exact Or.inl (by simp [stopProcessing, h, he])

/-- Claim C2: calling `handleSendMessage` while `isProcessing` is true has zero
observable side effects — no create-session request, no collaborator call, and
`sessionId`, `isProcessing`, the button enablement and the status indicator are
all unchanged. -/
theorem C2_guard_noop (s : AppState) (msg : String) (r : FetchResult)
    (h : s.isProcessing = true) :
    handleSendMessage s msg r = (s, []) := by
  simp [handleSendMessage, h]

/-- Witness for C2 at a concrete busy state. -/
theorem C2_guard_noop_witness :
    handleSendMessage sBusy "hi" (FetchResult.ok "s2") = (sBusy, []) :=
  C2_guard_noop sBusy "hi" (FetchResult.ok "s2") rfl

/-- Claim C3: a submission from the idle state whose create-session fetch
succeeds with session id `sid` ends with `isProcessing = true`,
`sessionId = sid`, and issues, in order: the create-session request, the raw
user message to the chat collaborator, the WebSocket connection for `sid`, and
the thinking-timeline reset. -/
theorem C3_submit_success (s : AppState) (msg sid : String)
    (h : s.isProcessing = false) :
    handleSendMessage s msg (FetchResult.ok sid) =
      ({ s with
           isProcessing := true
           sendDisabled := true
           stopDisabled := false
           statusIndicator := StatusText.processing
           sessionId := some sid },
       [Effect.fetchChat msg,
        Effect.chatAdd (ChatMsg.user msg),
        Effect.wsConnect sid,
        Effect.thinkingClear]) := by
  simp [handleSendMessage, h, submitEntry, submitSettle]

/-- Witness for C3 at a concrete idle state. -/
theorem C3_submit_success_witness :
    handleSendMessage s0 "hello" (FetchResult.ok "s1") =
      ({ s0 with
           isProcessing := true
           sendDisabled := true
           stopDisabled := false
           statusIndicator := StatusText.processing
           sessionId := some "s1" },
       [Effect.fetchChat "hello",
        Effect.chatAdd (ChatMsg.user "hello"),
        Effect.wsConnect "s1",
        Effect.thinkingClear]) :=
  C3_submit_success s0 "hello" "s1" rfl

/-- Claim C4: a submission from the idle state whose create-session fetch
fails (non-OK status or transport fault) ends idle with send re-enabled, stop
disabled and the status indicator cleared, and reports exactly one system
message carrying the failure reason. -/
theorem C4_submit_failure (s : AppState) (msg : String) (r : FetchResult)
    (reason : FailReason) (h : s.isProcessing = false)
    (hr : failureReason r = some reason) :
    (handleSendMessage s msg r).1 =
      { s with
          isProcessing := false
          sendDisabled := false
          stopDisabled := true
          statusIndicator := StatusText.empty } ∧
    systemMsgs (handleSendMessage s msg r).2 = [SysMsg.errorOccurred reason] := by
  cases r with
  | ok sid => simp [failureReason] at hr
  | httpError st =>
      simp only [failureReason, Option.some.injEq] at hr
      subst hr
      constructor
      · simp [handleSendMessage, h, submitEntry, submitSettle]
      · simp [handleSendMessage, h, submitEntry, submitSettle, systemMsgs]
  | fault m =>
      simp only [failureReason, Option.some.injEq] at hr
      subst hr
      constructor
      · simp [handleSendMessage, h, submitEntry, submitSettle]
      · simp [handleSendMessage, h, submitEntry, submitSettle, systemMsgs]

/-- Witness for C4: a 500 response at a concrete idle state. -/
theorem C4_submit_failure_witness :
    (handleSendMessage s0 "hello" (FetchResult.httpError 500)).1 =
      { s0 with
          isProcessing := false
          sendDisabled := false
          stopDisabled := true
          statusIndicator := StatusText.empty } ∧
    systemMsgs (handleSendMessage s0 "hello" (FetchResult.httpError 500)).2 =
      [SysMsg.errorOccurred (FailReason.apiError 500)] :=
  C4_submit_failure s0 "hello" (FetchResult.httpError 500)
    (FailReason.apiError 500) rfl rfl

/-- A concrete busy state whose session id is present but the empty string. -/
def sEmptyId : AppState :=
  { sessionId := some "", isProcessing := true, sendDisabled := true,
    stopDisabled := false, statusIndicator := StatusText.processing }

/-- Counterexample to claim C8 as stated: at a state whose `sessionId` is the
present-but-empty string, the guard `if (!this.sessionId)` is falsy-true and
returns, so a cancel whose stop outcome would be a failure reports no system
message at all (indeed has no effects), instead of reporting the failure
reason. -/
theorem C8_counterexample :
    (sEmptyId.sessionId).isSome = true ∧
    systemMsgs (stopProcessing sEmptyId (StopResult.httpError 500)).2 = [] ∧
    stopProcessing sEmptyId (StopResult.httpError 500) = (sEmptyId, []) :=
  ⟨rfl, rfl, rfl⟩

/-- Claim C8, amended: `stopProcessing` with a current session whose id is
non-empty (truthy) and whose stop request fails reports the failure reason as
one system message and leaves the entire controller state (`sessionId`,
`isProcessing`, buttons, indicator) unchanged. -/
theorem C8_cancel_failure (s : AppState) (sid : String) (r : StopResult)
    (reason : FailReason) (hs : s.sessionId = some sid) (hsid : sid ≠ "")
    (hr : stopFailureReason r = some reason) :
    stopProcessing s r =
      (s, [Effect.fetchStop sid,
           Effect.chatAdd (ChatMsg.system (SysMsg.errorOccurred reason))]) := by
  cases r with
  | ok => simp [stopFailureReason] at hr
  | httpError st =>
      simp only [stopFailureReason, Option.some.injEq] at hr
      subst hr
      simp [stopProcessing, hs, hsid]
  | fault m =>
      simp only [stopFailureReason, Option.some.injEq] at hr
      subst hr
      simp [stopProcessing, hs, hsid]

/-- Witness for C8: a failing stop request at a concrete busy state with a
non-empty session id. -/
theorem C8_cancel_failure_witness :
    stopProcessing sBusy (StopResult.httpError 500) =
      (sBusy,
       [Effect.fetchStop "s1",
        Effect.chatAdd (ChatMsg.system (SysMsg.errorOccurred (FailReason.apiError 500)))]) :=
  C8_cancel_failure sBusy "s1" (StopResult.httpError 500)
    (FailReason.apiError 500) rfl (by decide) rfl

lemma thinkingCalls_wsStatusEffects (e : InboundEvent) :
    thinkingCalls (wsStatusEffects e) = [] := by
  unfold wsStatusEffects
  cases e.status with
  | none => rfl
  | some st =>
      dsimp only
      split
      · cases e.result with
        | none => rfl
        | some r =>
            dsimp only
            split <;> rfl
      · rfl

lemma aiMsgs_wsEffects (e : InboundEvent) (now : Nat) :
    aiMsgs (wsEffects e now) = aiMsgs (wsStatusEffects e) := by
  unfold wsEffects aiMsgs
  rw [List.filterMap_append, List.filterMap_append, List.filterMap_append]
  split <;> split <;> split <;> simp

/-- Claim C5 (amended form not needed — proved as stated): any event whose
status is one of the terminal values `completed`, `error`, `stopped` leaves
the controller idle: `isProcessing = false`, send re-enabled, stop disabled,
status indicator cleared. -/
theorem C5_terminal_idle (s : AppState) (e : InboundEvent) (now : Nat)
    (h : e.status = some "completed" ∨ e.status = some "error" ∨
         e.status = some "stopped") :
    (handleWebSocketMessage s e now).1 =
      { s with
          isProcessing := false
          sendDisabled := false
          stopDisabled := true
          statusIndicator := StatusText.empty } := by
  rcases h with h | h | h <;>
    simp [handleWebSocketMessage, wsStateUpdate, h, isTerminalStatus]

/-- Witness for C5: a `completed` event at a concrete busy state. -/
theorem C5_terminal_idle_witness :
    (handleWebSocketMessage sBusy { status := some "completed" } 0).1 =
      { sBusy with
          isProcessing := false
          sendDisabled := false
          stopDisabled := true
          statusIndicator := StatusText.empty } :=
  C5_terminal_idle sBusy { status := some "completed" } 0 (Or.inl rfl)

/-- Counterexample to claim C6 as stated: `{status: "completed", result: ""}`
has a present `result` field, yet `if (data.result)` is falsy on the empty
string, so no AI message is forwarded. -/
theorem C6_counterexample :
    (InboundEvent.status { status := some "completed", result := some "" } =
       some "completed") ∧
    (InboundEvent.result { status := some "completed", result := some "" }).isSome
       = true ∧
    aiMsgs (handleWebSocketMessage s0
      { status := some "completed", result := some "" } 0).2 = [] := by
  refine ⟨rfl, rfl, ?_⟩
  rfl

/-- Claim C6, amended: for every event with status `completed` whose `result`
is present and non-empty (truthy), the dispatch forwards exactly one AI
message, equal to the result. -/
theorem C6_completed_result (s : AppState) (e : InboundEvent) (now : Nat)
    (r : String) (hst : e.status = some "completed") (hr : e.result = some r)
    (hne : r ≠ "") :
    aiMsgs (handleWebSocketMessage s e now).2 = [r] := by
  have h2 : (handleWebSocketMessage s e now).2 = wsEffects e now := rfl
  rw [h2, aiMsgs_wsEffects e now]
  simp [wsStatusEffects, hst, hr, isTerminalStatus, hne, aiMsgs]

/-- Witness for C6: a completed event carrying result `"done"`. -/
theorem C6_completed_result_witness :
    aiMsgs (handleWebSocketMessage s0
      { status := some "completed", result := some "done" } 0).2 = ["done"] :=
  C6_completed_result s0 { status := some "completed", result := some "done" }
    0 "done" rfl rfl (by decide)

/-- Counterexample to claim C10 as stated: `{status: "error", result: ""}` has
a present `result` field and a terminal status, yet the empty string is falsy
and no AI message is forwarded. -/
theorem C10_counterexample :
    (InboundEvent.status { status := some "error", result := some "" } =
       some "error") ∧
    (InboundEvent.result { status := some "error", result := some "" }).isSome
       = true ∧
    aiMsgs (handleWebSocketMessage s0
      { status := some "error", result := some "" } 0).2 = [] := by
  refine ⟨rfl, rfl, ?_⟩
  rfl

/-- Claim C10, amended: result forwarding is gated on any terminal status, not
on `completed` alone — an event with status `error` or `stopped` whose
`result` is present and non-empty (truthy) also forwards exactly one AI
message, equal to the result. -/
theorem C10_terminal_result (s : AppState) (e : InboundEvent) (now : Nat)
    (r : String) (hst : e.status = some "error" ∨ e.status = some "stopped")
    (hr : e.result = some r) (hne : r ≠ "") :
    aiMsgs (handleWebSocketMessage s e now).2 = [r] := by
  have h2 : (handleWebSocketMessage s e now).2 = wsEffects e now := rfl
  rw [h2, aiMsgs_wsEffects e now]
  rcases hst with hst | hst <;>
    simp [wsStatusEffects, hst, hr, isTerminalStatus, hne, aiMsgs]

/-- Witness for C10: an error event carrying result `"boom"`. -/
theorem C10_terminal_result_witness :
    aiMsgs (handleWebSocketMessage s0
      { status := some "error", result := some "boom" } 0).2 = ["boom"] :=
  C10_terminal_result s0 { status := some "error", result := some "boom" }
    0 "boom" (Or.inl rfl) rfl (by decide)

lemma thinkingCalls_append (a b : List Effect) :
    thinkingCalls (a ++ b) = thinkingCalls a ++ thinkingCalls b := by
  simp [thinkingCalls, List.filterMap_append]

/-- Claim C7: an event with non-empty `system_logs` produces exactly one
thinking-timeline call for them — one `ThinkingStep` per log line, in original
order, each with `message` the log line, `type = "system_log"` and
`details = null` — and any non-empty `thinking_steps` of the same event are
forwarded in a preceding call. -/
theorem C7_system_logs (s : AppState) (e : InboundEvent) (now : Nat)
    (h : e.system_logs ≠ []) :
    thinkingCalls (handleWebSocketMessage s e now).2 =
      (if e.thinking_steps = [] then [] else [e.thinking_steps])
        ++ [e.system_logs.map (mkLogStep now)] ∧
    (e.system_logs.map (mkLogStep now)).map ThinkingStep.message = e.system_logs ∧
    ∀ st ∈ e.system_logs.map (mkLogStep now),
      st.type = "system_log" ∧ st.details = none := by
  refine ⟨?_, ?_, ?_⟩
  · have h2 : (handleWebSocketMessage s e now).2 = wsEffects e now := rfl
    have hs : e.system_logs.isEmpty = false := by
      cases hl : e.system_logs with
      | nil => exact absurd hl h
      | cons a l => rfl
    rw [h2]
    unfold wsEffects
    rw [thinkingCalls_append, thinkingCalls_append, thinkingCalls_append,
        thinkingCalls_wsStatusEffects]
    by_cases ht : e.thinking_steps = [] <;> simp [hs, ht, thinkingCalls]
  · induction e.system_logs with
    | nil => rfl
    | cons a l ih => simp [mkLogStep] at ih ⊢; exact ih
  · intro st hst
    rw [List.mem_map] at hst
    obtain ⟨a, ha, rfl⟩ := hst
    exact ⟨rfl, rfl⟩

/-- A concrete event carrying both thinking steps and system logs. -/
def e7 : InboundEvent :=
  { thinking_steps := [{ message := "t1", type := "thinking", details := none,
                         timestamp := 5 }],
    system_logs := ["a", "b"] }

/-- Witness for C7 at the concrete event `e7`. -/
theorem C7_system_logs_witness :
    thinkingCalls (handleWebSocketMessage s0 e7 7).2 =
      (if e7.thinking_steps = [] then [] else [e7.thinking_steps])
        ++ [e7.system_logs.map (mkLogStep 7)] ∧
    (e7.system_logs.map (mkLogStep 7)).map ThinkingStep.message = e7.system_logs ∧
    ∀ st ∈ e7.system_logs.map (mkLogStep 7),
      st.type = "system_log" ∧ st.details = none :=
  C7_system_logs s0 e7 7 (by decide)

/-- Claim C9: dispatching the same event object twice (second time from the
post-state of the first, with the same clock value) produces the same effect
trace twice; in particular the thinking-timeline calls of the second dispatch
are identical to the first — the dispatcher reads only the event, never the
controller state, and keeps no deduplication memory. -/
theorem C9_redispatch (s : AppState) (e : InboundEvent) (now : Nat) :
    (handleWebSocketMessage (handleWebSocketMessage s e now).1 e now).2 =
      (handleWebSocketMessage s e now).2 ∧
    thinkingCalls
        (handleWebSocketMessage (handleWebSocketMessage s e now).1 e now).2 =
      thinkingCalls (handleWebSocketMessage s e now).2 :=
  ⟨rfl, rfl⟩

/-- Counterexample to claim C1 as stated: the configuration reached from the
initial state by the synchronous entry of the first `handleSendMessage` call
— explicitly inside the window the claim covers, between setting
`isProcessing = true` and the create-session response being stored — is
reachable, is processing, and still has `sessionId = null`. -/
theorem C1_counterexample :
    Reach ⟨submitEntry s0, some "hello"⟩ ∧
    (submitEntry s0).isProcessing = true ∧
    (submitEntry s0).sessionId = none :=
  ⟨Reach.submitStart ⟨s0, none⟩ "hello"
     (Reach.init false true StatusText.empty) rfl rfl,
   rfl, rfl⟩

/-- Claim C1, amended: at every reachable configuration with no create-session
request in flight (quiescent), `isProcessing = true` implies
`sessionId ≠ null`.  (As stated the claim also covered the in-flight window of
the first submission, where it fails — see the counterexample.) -/
theorem C1_quiescent_invariant (c : Config) (hr : Reach c)
    (hp : c.pendingSubmit = none) (ha : c.state.isProcessing = true) :
    c.state.sessionId ≠ none := by
  induction hr with
  | init sd sp ind => exact absurd ha (by simp)
  | submitStart c msg hc hpend hproc ih => simp at hp
  | submitResolve c msg r hc hpend ih =>
      cases r with
      | ok sid => simp [submitSettle]
      | httpError st => simp [submitSettle] at ha
      | fault m => simp [submitSettle] at ha
  | wsEvent c e now hc ih =>
      dsimp only at hp ha ⊢
      have hdef : (handleWebSocketMessage c.state e now).1 = wsStateUpdate c.state e := rfl
      rw [hdef] at ha ⊢
      rcases wsStateUpdate_isProcessing c.state e with hp2 | hp2
      · rw [wsStateUpdate_sessionId]
        rw [hp2] at ha
        exact ih hp ha
      · rw [hp2] at ha
        exact absurd ha (by simp)
  | cancel c r hc ih =>
      dsimp only at hp ha ⊢
      rcases stopProcessing_isProcessing c.state r with hp2 | hp2
      · rw [stopProcessing_sessionId]
        rw [hp2] at ha
        exact ih hp ha
      · rw [hp2] at ha
        exact absurd ha (by simp)

/-- Witness for C1: the quiescent configuration after a full successful first
submission is reachable, processing, and has a session id. -/
theorem C1_quiescent_invariant_witness :
    ((submitSettle (submitEntry s0) "hello" (FetchResult.ok "s1")).1).sessionId
      ≠ none :=
  C1_quiescent_invariant
    ⟨(submitSettle (submitEntry s0) "hello" (FetchResult.ok "s1")).1, none⟩
    (Reach.submitResolve ⟨submitEntry s0, some "hello"⟩ "hello"
      (FetchResult.ok "s1")
      (Reach.submitStart ⟨s0, none⟩ "hello"
        (Reach.init false true StatusText.empty) rfl rfl)
      rfl)
    rfl rfl
